import Mathlib

/-!
Shallow embedding of the Data-Analysis repository's core (the optical
"Slide" model, the two power-meter uncertainty models, and the Trial
aggregate) and proofs of the specification's claims about it.

Conventions of the embedding:
* `f64` values are embedded as exact rationals `ℚ`; decimal literals are
  read exactly.  Division is the total division of `ℚ` (zero denominator
  yields `0`), standing in for the source's silent IEEE division.
* A Rust `panic!` / `.expect(...)` is embedded as the `none` branch of an
  `Option` (or `Except.error`) result: the call yields no numeric value.
* The `Measurement` / `Background` capability traits only ever expose one
  number each (`value()` / `background()`); a measurement argument is
  therefore embedded as the rational number its accessor returns.
-/

/-- An enumeration over the allowed polarization states for light in this
experiment (from `src/experiment/trial.rs`). -/
inductive PolarizationState
  | Horizontal
  | Vertical
  deriving DecidableEq

/-- An enumeration of the two possible power meter labels in the experiment
(from `src/experiment/trial.rs`). -/
inductive PowerMeterLabel
  | SensorA
  | SensorC
  deriving DecidableEq

/-- Embedding of `ndarray::Array2<f64>`: a rectangular matrix given by its
shape and an entry function.  `get` checks both indices against the shape,
exactly as `Array2::get` does. -/
structure Array2Q where
  nrows : Nat
  ncols : Nat
  entries : Nat → Nat → ℚ

/-- `Array2::get((i, j))`: `some` entry iff both indices are in bounds. -/
def Array2Q.get (m : Array2Q) (i j : Nat) : Option ℚ :=
  if i < m.nrows ∧ j < m.ncols then some (m.entries i j) else none

/-- The `Slide` of `src/experiment/slide.rs`: holds the optical coefficient
matrix loaded from `computation_parameters.csv`. -/
structure Slide where
  optical_coefficients : Array2Q

/-- `Slide::get_reflectivity_column_index` (ignores `self` in the source). -/
def Slide.get_reflectivity_column_index (polarization : PolarizationState) : Nat :=
  match polarization with
  | .Horizontal => 0
  | .Vertical => 2

/-- `Slide::get_sensor_label_row_index` (ignores `self` in the source). -/
def Slide.get_sensor_label_row_index (sensor_label : PowerMeterLabel) : Nat :=
  match sensor_label with
  | .SensorA => 0
  | .SensorC => 1

/-- `Slide::compute_incident_power` from `src/experiment/slide.rs`.  The
transmitted-side parameters are present but unused, exactly as in the
source (`_transmitted_power`, `_transmitted_power_background`,
`_transmitted_power_meter_label`).  The failed `.expect(...)` on a missing
matrix cell is the `none` branch. -/
def Slide.compute_incident_power (s : Slide)
    (reflected_power reflected_power_background : ℚ)
    (reflected_power_meter_label : PowerMeterLabel)
    (_transmitted_power _transmitted_power_background : ℚ)
    ( _transmitted_power_meter_label : PowerMeterLabel)
    (polarization : PolarizationState) : Option ℚ :=
  match s.optical_coefficients.get
      (Slide.get_sensor_label_row_index reflected_power_meter_label)
      (Slide.get_reflectivity_column_index polarization) with
  | some reflectivity_coefficient =>
      some ((reflected_power - reflected_power_background) / reflectivity_coefficient)
  | none => none

/-- `Slide::compute_efficiency` from `src/experiment/slide.rs`:
`(Tv - Tb) / ((Rv - Rb) / rho - (Rv - Rb))`, with rho looked up at the
reflected sensor's row and the polarization's column.  The division is
performed unconditionally, as in the source. -/
def Slide.compute_efficiency (s : Slide)
    (reflected_power reflected_power_background : ℚ)
    (reflected_power_meter_label : PowerMeterLabel)
    (transmitted_power transmitted_power_background : ℚ)
    ( _transmitted_power_meter_label : PowerMeterLabel)
    (polarization : PolarizationState) : Option ℚ :=
  match s.optical_coefficients.get
      (Slide.get_sensor_label_row_index reflected_power_meter_label)
      (Slide.get_reflectivity_column_index polarization) with
  | some reflectivity_coefficient =>
      some ((transmitted_power - transmitted_power_background)
        / ((reflected_power - reflected_power_background) / reflectivity_coefficient
          - (reflected_power - reflected_power_background)))
  | none => none

/-- A concrete slide used to instantiate universally quantified theorems:
two rows, three columns, `rho` = 1/2 at (0,0), 1/4 at (0,2), 1 elsewhere. -/
def testSlide : Slide :=
  ⟨⟨2, 3, fun i j => if i = 0 ∧ j = 0 then 0.5 else if i = 0 ∧ j = 2 then 0.25 else 1⟩⟩

/-- Helper: `compute_efficiency` evaluated when the matrix lookup yields rho. -/
lemma Slide.compute_efficiency_of_get (s : Slide)
    (rv rb tv tb rho : ℚ) (rl tl : PowerMeterLabel) (p : PolarizationState)
    (h : s.optical_coefficients.get (Slide.get_sensor_label_row_index rl)
      (Slide.get_reflectivity_column_index p) = some rho) :
    s.compute_efficiency rv rb rl tv tb tl p =
      some ((tv - tb) / ((rv - rb) / rho - (rv - rb))) := by
  unfold Slide.compute_efficiency
  rw [h]

/-- Helper: `compute_incident_power` evaluated when the matrix lookup yields rho. -/
lemma Slide.compute_incident_power_of_get (s : Slide)
    (rv rb tv tb rho : ℚ) (rl tl : PowerMeterLabel) (p : PolarizationState)
    (h : s.optical_coefficients.get (Slide.get_sensor_label_row_index rl)
      (Slide.get_reflectivity_column_index p) = some rho) :
    s.compute_incident_power rv rb rl tv tb tl p = some ((rv - rb) / rho) := by
  unfold Slide.compute_incident_power
  rw [h]

/-- C1: for every calibration matrix, readings and backgrounds, sensor label
and polarization, whenever the matrix cell at the reflected sensor's row and
the polarization's column holds rho, `Slide::compute_efficiency` returns
`Tc / (Rc/rho - Rc)` with `Rc = reflected.value() - reflected_background.background()`
and `Tc = transmitted.value() - transmitted_background.background()`. -/
theorem slide_compute_efficiency_formula (s : Slide)
    (rv rb tv tb rho : ℚ) (rl tl : PowerMeterLabel) (p : PolarizationState)
    (h : s.optical_coefficients.get (Slide.get_sensor_label_row_index rl)
      (Slide.get_reflectivity_column_index p) = some rho) :
    s.compute_efficiency rv rb rl tv tb tl p =
      some ((tv - tb) / ((rv - rb) / rho - (rv - rb))) := by
  unfold Slide.compute_efficiency
  rw [h]

/-- Witness for C1 at a concrete input: with rho = 1/2, readings 0.01/0.001
reflected and 0.005/0.001 transmitted, the efficiency is
(0.004)/(0.018 - 0.009) = 4/9. -/
theorem slide_compute_efficiency_formula_witness :
    testSlide.optical_coefficients.get (Slide.get_sensor_label_row_index .SensorA)
        (Slide.get_reflectivity_column_index .Horizontal) = some 0.5 ∧
      testSlide.compute_efficiency 0.01 0.001 .SensorA 0.005 0.001 .SensorC .Horizontal =
        some ((0.005 - 0.001) / ((0.01 - 0.001) / 0.5 - (0.01 - 0.001))) :=
  ⟨rfl, slide_compute_efficiency_formula testSlide 0.01 0.001 0.005 0.001 0.5
    .SensorA .SensorC .Horizontal rfl⟩

/-- C2: `Slide::compute_incident_power` returns `Rc / rho` where rho is the
matrix cell at row 0 for SensorA / row 1 for SensorC (indexed by the
reflected sensor label) and column 0 for Horizontal / column 2 for
Vertical. -/
theorem slide_compute_incident_power_formula :
    Slide.get_sensor_label_row_index .SensorA = 0 ∧
    Slide.get_sensor_label_row_index .SensorC = 1 ∧
    Slide.get_reflectivity_column_index .Horizontal = 0 ∧
    Slide.get_reflectivity_column_index .Vertical = 2 ∧
    ∀ (s : Slide) (rv rb tv tb rho : ℚ) (rl tl : PowerMeterLabel)
      (p : PolarizationState),
      s.optical_coefficients.get (Slide.get_sensor_label_row_index rl)
          (Slide.get_reflectivity_column_index p) = some rho →
      s.compute_incident_power rv rb rl tv tb tl p = some ((rv - rb) / rho) := by
  refine ⟨rfl, rfl, rfl, rfl, ?_⟩
  intro s rv rb tv tb rho rl tl p h
  unfold Slide.compute_incident_power
  rw [h]

/-- Witness for C2 at the spec's concrete scenario: sensor row 0, rho_H = 0.5,
reading 0.01, background 0.001, incident power (0.01 - 0.001)/0.5 = 0.018. -/
theorem slide_compute_incident_power_formula_witness :
    testSlide.compute_incident_power 0.01 0.001 .SensorA 0 0 .SensorC .Horizontal =
      some 0.018 := by
  have h := slide_compute_incident_power_formula.2.2.2.2 testSlide
    0.01 0.001 0 0 0.5 .SensorA .SensorC .Horizontal rfl
  rw [h]
  norm_num

/-- C8: `Slide::compute_incident_power` is independent of its
transmitted-side arguments: any two choices of transmitted measurement,
transmitted background and transmitted power-meter label give the same
result, all other arguments fixed. -/
theorem slide_compute_incident_power_ignores_transmitted (s : Slide)
    (rv rb tv tb tv2 tb2 : ℚ) (rl tl tl2 : PowerMeterLabel)
    (p : PolarizationState) :
    s.compute_incident_power rv rb rl tv tb tl p =
      s.compute_incident_power rv rb rl tv2 tb2 tl2 p := rfl

/-- C9: whenever the matrix cell holds rho and the efficiency denominator
`Rc * (1 - rho) / rho` is non-zero, the value `Slide::compute_efficiency`
computes through the code's formula structure `Tc / (Rc/rho - Rc)` is
identical to direct substitution into the spec's `Tc / (Rc * (1 - rho) / rho)`.
In this exact-arithmetic embedding the two formula structures evaluate to
the same rational. -/
theorem slide_compute_efficiency_direct_substitution (s : Slide)
    (rv rb tv tb rho : ℚ) (rl tl : PowerMeterLabel) (p : PolarizationState)
    (h : s.optical_coefficients.get (Slide.get_sensor_label_row_index rl)
      (Slide.get_reflectivity_column_index p) = some rho)
    (hden : (rv - rb) * (1 - rho) / rho ≠ 0) :
    s.compute_efficiency rv rb rl tv tb tl p =
      some ((tv - tb) / ((rv - rb) * (1 - rho) / rho)) := by
  have hrho : rho ≠ 0 := by
    intro h0
    apply hden
    rw [h0, div_zero]
  have hkey : (rv - rb) / rho - (rv - rb) = (rv - rb) * (1 - rho) / rho := by
    field_simp
    ring
  rw [Slide.compute_efficiency_of_get s rv rb tv tb rho rl tl p h, hkey]

/-- Witness for C9 at a concrete input: rho = 1/2, Rc = 0.009, Tc = 0.004;
both formula structures give 0.004 / 0.009 = 4/9. -/
theorem slide_compute_efficiency_direct_substitution_witness :
    ((0.01 - 0.001 : ℚ) * (1 - 0.5) / 0.5 ≠ 0) ∧
      testSlide.compute_efficiency 0.01 0.001 .SensorA 0.005 0.001 .SensorC .Horizontal =
        some ((0.005 - 0.001) / ((0.01 - 0.001) * (1 - 0.5) / 0.5)) :=
  ⟨by norm_num,
    slide_compute_efficiency_direct_substitution testSlide 0.01 0.001 0.005 0.001 0.5
      .SensorA .SensorC .Horizontal rfl (by norm_num)⟩

/-- C10: if the optical coefficient matrix has at least 2 rows and at least
3 columns, then for every sensor label and polarization the row index is
0 or 1, the column index is 0 or 2, and the matrix lookups inside
`compute_incident_power` and `compute_efficiency` succeed — the
"Invalid optical coefficients" failure branch is unreachable. -/
theorem slide_lookup_always_succeeds (s : Slide)
    (rv rb tv tb : ℚ) (rl tl : PowerMeterLabel) (p : PolarizationState)
    (hr : 2 ≤ s.optical_coefficients.nrows)
    (hc : 3 ≤ s.optical_coefficients.ncols) :
    (Slide.get_sensor_label_row_index rl = 0 ∨ Slide.get_sensor_label_row_index rl = 1) ∧
    (Slide.get_reflectivity_column_index p = 0 ∨ Slide.get_reflectivity_column_index p = 2) ∧
    (s.compute_incident_power rv rb rl tv tb tl p).isSome = true ∧
    (s.compute_efficiency rv rb rl tv tb tl p).isSome = true := by
  have hrow : Slide.get_sensor_label_row_index rl < s.optical_coefficients.nrows := by
    cases rl <;> simp [Slide.get_sensor_label_row_index] <;> omega
  have hcol : Slide.get_reflectivity_column_index p < s.optical_coefficients.ncols := by
    cases p <;> simp [Slide.get_reflectivity_column_index] <;> omega
  have hget : s.optical_coefficients.get (Slide.get_sensor_label_row_index rl)
      (Slide.get_reflectivity_column_index p) =
      some (s.optical_coefficients.entries (Slide.get_sensor_label_row_index rl)
        (Slide.get_reflectivity_column_index p)) := by
    unfold Array2Q.get
    rw [if_pos ⟨hrow, hcol⟩]
  refine ⟨?_, ?_, ?_, ?_⟩
  · cases rl <;> simp [Slide.get_sensor_label_row_index]
  · cases p <;> simp [Slide.get_reflectivity_column_index]
  · unfold Slide.compute_incident_power
    rw [hget]
    rfl
  · unfold Slide.compute_efficiency
    rw [hget]
    rfl

/-- Witness for C10: the 2-by-3 `testSlide` satisfies the shape bounds and
both computations return a value at a concrete input. -/
theorem slide_lookup_always_succeeds_witness :
    2 ≤ testSlide.optical_coefficients.nrows ∧
    3 ≤ testSlide.optical_coefficients.ncols ∧
    (testSlide.compute_incident_power 0.01 0.001 .SensorC 0 0 .SensorA .Vertical).isSome = true ∧
    (testSlide.compute_efficiency 0.01 0.001 .SensorC 0 0 .SensorA .Vertical).isSome = true := by
  have h := slide_lookup_always_succeeds testSlide 0.01 0.001 0 0
    .SensorC .SensorA .Vertical (by decide) (by decide)
  exact ⟨by decide, by decide, h.2.2.1, h.2.2.2⟩

/-- A slide whose (0,0) coefficient is the singular value rho = 1, used to
exhibit the zero-denominator behaviour of `compute_efficiency`. -/
def testSlideRhoOne : Slide := ⟨⟨2, 3, fun _ _ => 1⟩⟩

/-- C5 counterexample: at rho = 1 the efficiency denominator
`Rc/rho - Rc` is zero, yet `Slide::compute_efficiency` still returns a
plain `some` value (the unchecked division, a silent IEEE infinity/NaN in
the source) — it does not yield an undefined-efficiency error result. -/
theorem slide_compute_efficiency_silent_division_cex :
    ((0.01 - 0.001 : ℚ) / 1 - (0.01 - 0.001) = 0) ∧
      testSlideRhoOne.compute_efficiency 0.01 0.001 .SensorA 0.005 0.001 .SensorC
        .Horizontal ≠ none := by
  constructor
  · norm_num
  · intro h
    simp [testSlideRhoOne, Slide.compute_efficiency, Array2Q.get,
      Slide.get_sensor_label_row_index, Slide.get_reflectivity_column_index] at h

/-- C5 amended: whenever the looked-up coefficient is rho = 1 or the
corrected reflected power `Rc = rv - rb` is zero, the efficiency
denominator `Rc/rho - Rc` is zero, and `Slide::compute_efficiency`
nevertheless returns `some` of the unchecked division — the zero
denominator is never signalled as an error. -/
theorem slide_compute_efficiency_zero_denominator_silent (s : Slide)
    (rv rb tv tb rho : ℚ) (rl tl : PowerMeterLabel) (p : PolarizationState)
    (h : s.optical_coefficients.get (Slide.get_sensor_label_row_index rl)
      (Slide.get_reflectivity_column_index p) = some rho)
    (hz : rho = 1 ∨ rv - rb = 0) :
    ((rv - rb) / rho - (rv - rb) = 0) ∧
      s.compute_efficiency rv rb rl tv tb tl p =
        some ((tv - tb) / ((rv - rb) / rho - (rv - rb))) := by
  have hden : (rv - rb) / rho - (rv - rb) = 0 := by
    rcases hz with h1 | h2
    · rw [h1, div_one, sub_self]
    · rw [h2, zero_div, sub_zero]
  refine ⟨hden, ?_⟩
  unfold Slide.compute_efficiency
  rw [h]

/-- Witness for the amended C5 at a concrete input: rho = 1, readings
0.01/0.001 and 0.005/0.001. -/
theorem slide_compute_efficiency_zero_denominator_silent_witness :
    ((0.01 - 0.001 : ℚ) / 1 - (0.01 - 0.001) = 0) ∧
      testSlideRhoOne.compute_efficiency 0.01 0.001 .SensorA 0.005 0.001 .SensorC
          .Horizontal =
        some ((0.005 - 0.001) / ((0.01 - 0.001) / 1 - (0.01 - 0.001))) :=
  slide_compute_efficiency_zero_denominator_silent testSlideRhoOne 0.01 0.001 0.005 0.001 1
    .SensorA .SensorC .Horizontal rfl (Or.inl rfl)

/-- The possible ranges displayed on the Newport 835 power meter (from
`src/measurement/power_meter/newportmodel835powermeter.rs`). -/
inductive NewportModel835PowerMeterRange
  | Twonanowatts
  | Twentynanowatts
  | Twohundrednanowatts
  | Twomilliwatts
  | Twentymilliwatts
  | Twohundredmilliwatts
  deriving DecidableEq

/-- The fullscale fractional uncertainties map (a `HashMap` containing all
six variants in the source, embedded as a total function). -/
def NEWPORT_MODEL_835_POWER_METER_FULLSCALE_UNCERTAINTIES :
    NewportModel835PowerMeterRange → ℚ
  | .Twonanowatts => 0.002
  | .Twentynanowatts => 0.0005
  | .Twohundrednanowatts => 0.0005
  | .Twomilliwatts => 0.0005
  | .Twentymilliwatts => 0.0005
  | .Twohundredmilliwatts => 0.0005

/-- The reading fractional uncertainties map (a `HashMap` containing all
six variants in the source, embedded as a total function). -/
def NEWPORT_MODEL_835_POWER_METER_READING_UNCERTAINTIES :
    NewportModel835PowerMeterRange → ℚ
  | .Twonanowatts => 0.004
  | .Twentynanowatts => 0.004
  | .Twohundrednanowatts => 0.002
  | .Twomilliwatts => 0.0015
  | .Twentymilliwatts => 0.001
  | .Twohundredmilliwatts => 0.001

/-- `NewportModel835PowerMeterRange::get_range`: the cascading match of the
source, with the final `panic!("oops")` arm embedded as `none`.  The first
arm is `(0.0..=0.000000002).contains(&x)`, i.e. closed at both ends. -/
def NewportModel835PowerMeterRange.get_range (value : ℚ) :
    Option NewportModel835PowerMeterRange :=
  if 0 ≤ value ∧ value ≤ 0.000000002 then some .Twonanowatts
  else if 0.000000002 < value ∧ value ≤ 0.000000020 then some .Twentynanowatts
  else if 0.000000020 < value ∧ value ≤ 0.000000200 then some .Twohundrednanowatts
  else if 0.000000200 < value ∧ value ≤ 0.002 then some .Twomilliwatts
  else if 0.002 < value ∧ value ≤ 0.020 then some .Twentymilliwatts
  else if 0.020 < value ∧ value ≤ 0.200 then some .Twohundredmilliwatts
  else none

/-- A power measurement read from a Newport model 835 power meter. -/
structure NewportModel835PowerMeterMeasurement where
  value : ℚ

/-- `NewportModel835PowerMeterMeasurement::uncertainty`:
`value * (fullscale_frac_uncertainty + reading_frac_uncertainty)` for the
range containing the value; the `panic!` inside `get_range` propagates as
`none`. -/
def NewportModel835PowerMeterMeasurement.uncertainty
    (m : NewportModel835PowerMeterMeasurement) : Option ℚ :=
  match NewportModel835PowerMeterRange.get_range m.value with
  | some range =>
      some (m.value * (NEWPORT_MODEL_835_POWER_METER_FULLSCALE_UNCERTAINTIES range
        + NEWPORT_MODEL_835_POWER_METER_READING_UNCERTAINTIES range))
  | none => none

lemma newport_get_range_bucket1 (v : ℚ) (h1 : 0 ≤ v) (h2 : v ≤ 0.000000002) :
    NewportModel835PowerMeterRange.get_range v = some .Twonanowatts := by
  unfold NewportModel835PowerMeterRange.get_range
  rw [if_pos ⟨h1, h2⟩]

lemma newport_get_range_bucket2 (v : ℚ) (h1 : 0.000000002 < v) (h2 : v ≤ 0.000000020) :
    NewportModel835PowerMeterRange.get_range v = some .Twentynanowatts := by
  unfold NewportModel835PowerMeterRange.get_range
  rw [if_neg (by push_neg; intro; linarith), if_pos ⟨h1, h2⟩]

lemma newport_get_range_bucket3 (v : ℚ) (h1 : 0.000000020 < v) (h2 : v ≤ 0.000000200) :
    NewportModel835PowerMeterRange.get_range v = some .Twohundrednanowatts := by
  unfold NewportModel835PowerMeterRange.get_range
  rw [if_neg (by push_neg; intro; linarith), if_neg (by push_neg; intro; linarith),
    if_pos ⟨h1, h2⟩]

lemma newport_get_range_bucket4 (v : ℚ) (h1 : 0.000000200 < v) (h2 : v ≤ 0.002) :
    NewportModel835PowerMeterRange.get_range v = some .Twomilliwatts := by
  unfold NewportModel835PowerMeterRange.get_range
  rw [if_neg (by push_neg; intro; linarith), if_neg (by push_neg; intro; linarith),
    if_neg (by push_neg; intro; linarith), if_pos ⟨h1, h2⟩]

lemma newport_get_range_bucket5 (v : ℚ) (h1 : 0.002 < v) (h2 : v ≤ 0.020) :
    NewportModel835PowerMeterRange.get_range v = some .Twentymilliwatts := by
  unfold NewportModel835PowerMeterRange.get_range
  rw [if_neg (by push_neg; intro; linarith), if_neg (by push_neg; intro; linarith),
    if_neg (by push_neg; intro; linarith), if_neg (by push_neg; intro; linarith),
    if_pos ⟨h1, h2⟩]

lemma newport_get_range_bucket6 (v : ℚ) (h1 : 0.020 < v) (h2 : v ≤ 0.200) :
    NewportModel835PowerMeterRange.get_range v = some .Twohundredmilliwatts := by
  unfold NewportModel835PowerMeterRange.get_range
  rw [if_neg (by push_neg; intro; linarith), if_neg (by push_neg; intro; linarith),
    if_neg (by push_neg; intro; linarith), if_neg (by push_neg; intro; linarith),
    if_neg (by push_neg; intro; linarith), if_pos ⟨h1, h2⟩]

lemma newport_uncertainty_of_get_range (v : ℚ) (r : NewportModel835PowerMeterRange)
    (h : NewportModel835PowerMeterRange.get_range v = some r) :
    NewportModel835PowerMeterMeasurement.uncertainty ⟨v⟩ =
      some (v * (NEWPORT_MODEL_835_POWER_METER_FULLSCALE_UNCERTAINTIES r
        + NEWPORT_MODEL_835_POWER_METER_READING_UNCERTAINTIES r)) := by
  unfold NewportModel835PowerMeterMeasurement.uncertainty
  simp only [h]

lemma newport_uncertainty_none_iff (v : ℚ) :
    NewportModel835PowerMeterMeasurement.uncertainty ⟨v⟩ = none ↔
      NewportModel835PowerMeterRange.get_range v = none := by
  unfold NewportModel835PowerMeterMeasurement.uncertainty
  cases h : NewportModel835PowerMeterRange.get_range v <;> simp [h]

/-- C3: for every value in [0, 0.2] W the Newport-835 uncertainty is
`v * (fullscale_frac + reading_frac)` of the unique table bucket containing
v, the lowest bucket [0, 2 nW] being closed at both ends and every later
bucket excluding its lower bound and including its upper bound.  One
conjunct per bucket of the section-4.2 table. -/
theorem newport_uncertainty_table :
    (∀ v : ℚ, 0 ≤ v → v ≤ 0.000000002 →
      NewportModel835PowerMeterRange.get_range v = some .Twonanowatts ∧
      NewportModel835PowerMeterMeasurement.uncertainty ⟨v⟩ = some (v * (0.002 + 0.004))) ∧
    (∀ v : ℚ, 0.000000002 < v → v ≤ 0.000000020 →
      NewportModel835PowerMeterRange.get_range v = some .Twentynanowatts ∧
      NewportModel835PowerMeterMeasurement.uncertainty ⟨v⟩ = some (v * (0.0005 + 0.004))) ∧
    (∀ v : ℚ, 0.000000020 < v → v ≤ 0.000000200 →
      NewportModel835PowerMeterRange.get_range v = some .Twohundrednanowatts ∧
      NewportModel835PowerMeterMeasurement.uncertainty ⟨v⟩ = some (v * (0.0005 + 0.002))) ∧
    (∀ v : ℚ, 0.000000200 < v → v ≤ 0.002 →
      NewportModel835PowerMeterRange.get_range v = some .Twomilliwatts ∧
      NewportModel835PowerMeterMeasurement.uncertainty ⟨v⟩ = some (v * (0.0005 + 0.0015))) ∧
    (∀ v : ℚ, 0.002 < v → v ≤ 0.020 →
      NewportModel835PowerMeterRange.get_range v = some .Twentymilliwatts ∧
      NewportModel835PowerMeterMeasurement.uncertainty ⟨v⟩ = some (v * (0.0005 + 0.001))) ∧
    (∀ v : ℚ, 0.020 < v → v ≤ 0.200 →
      NewportModel835PowerMeterRange.get_range v = some .Twohundredmilliwatts ∧
      NewportModel835PowerMeterMeasurement.uncertainty ⟨v⟩ = some (v * (0.0005 + 0.001))) := by
  refine ⟨fun v h1 h2 => ?_, fun v h1 h2 => ?_, fun v h1 h2 => ?_,
    fun v h1 h2 => ?_, fun v h1 h2 => ?_, fun v h1 h2 => ?_⟩
  · exact ⟨newport_get_range_bucket1 v h1 h2,
      newport_uncertainty_of_get_range v _ (newport_get_range_bucket1 v h1 h2)⟩
  · exact ⟨newport_get_range_bucket2 v h1 h2,
      newport_uncertainty_of_get_range v _ (newport_get_range_bucket2 v h1 h2)⟩
  · exact ⟨newport_get_range_bucket3 v h1 h2,
      newport_uncertainty_of_get_range v _ (newport_get_range_bucket3 v h1 h2)⟩
  · exact ⟨newport_get_range_bucket4 v h1 h2,
      newport_uncertainty_of_get_range v _ (newport_get_range_bucket4 v h1 h2)⟩
  · exact ⟨newport_get_range_bucket5 v h1 h2,
      newport_uncertainty_of_get_range v _ (newport_get_range_bucket5 v h1 h2)⟩
  · exact ⟨newport_get_range_bucket6 v h1 h2,
      newport_uncertainty_of_get_range v _ (newport_get_range_bucket6 v h1 h2)⟩

/-- Witness for C3 at the claim's two concrete inputs: v = 0.000000002
classifies into the 2 nW bucket with uncertainty v * 0.006, and a reading
of 0.001 W has uncertainty 0.001 * (0.0005 + 0.0015) = 0.000002. -/
theorem newport_uncertainty_table_witness :
    NewportModel835PowerMeterRange.get_range 0.000000002 = some .Twonanowatts ∧
    NewportModel835PowerMeterMeasurement.uncertainty ⟨0.000000002⟩ =
      some (0.000000002 * 0.006) ∧
    NewportModel835PowerMeterMeasurement.uncertainty ⟨0.001⟩ = some 0.000002 := by
  have ha := newport_uncertainty_table.1 0.000000002 (by norm_num) (by norm_num)
  have hb := newport_uncertainty_table.2.2.2.1 0.001 (by norm_num) (by norm_num)
  refine ⟨ha.1, ?_, ?_⟩
  · rw [ha.2]
    norm_num
  · rw [hb.2]
    norm_num

/-- The possible wavelength ranges for determining the Thorlabs PM100A
S120VC measurement uncertainty (from
`src/measurement/power_meter/thorlabspm100a.rs`). -/
inductive ThorlabsPm100aS120vcUncertaintyWavelengthRange
  | Range440to980nm
  | Range280to439nm
  | Range200to279nm
  | Range981to1100nm
  deriving DecidableEq

/-- The wavelength-range to fractional-uncertainty map (a `HashMap`
containing all four variants in the source, embedded as a total
function). -/
def THORLABS_PM100A_S120VC_WAVELENGTH_UNCERTAINTIES :
    ThorlabsPm100aS120vcUncertaintyWavelengthRange → ℚ
  | .Range440to980nm => 0.03
  | .Range280to439nm => 0.05
  | .Range200to279nm => 0.07
  | .Range981to1100nm => 0.07

/-- `ThorlabsPm100aS120vcUncertaintyWavelengthRange::get_range`: the
cascading match of the source, with the final
`panic!("Invalid measurement. Wavelength is out of range.")` arm embedded
as `none`.  The first arm is `(200.0..=279.0).contains(&x)`. -/
def ThorlabsPm100aS120vcUncertaintyWavelengthRange.get_range (at_wavelength : ℚ) :
    Option ThorlabsPm100aS120vcUncertaintyWavelengthRange :=
  if 200 ≤ at_wavelength ∧ at_wavelength ≤ 279 then some .Range200to279nm
  else if 279 < at_wavelength ∧ at_wavelength ≤ 439 then some .Range280to439nm
  else if 439 < at_wavelength ∧ at_wavelength ≤ 980 then some .Range440to980nm
  else if 980 < at_wavelength ∧ at_wavelength ≤ 1100 then some .Range981to1100nm
  else none

/-- A Thorlabs PM100A S120VC power meter measurement: the power value in
watts and the wavelength (nm) it was taken at. -/
structure ThorLabsPM100A_S120VC_PowerMeterMeasurement where
  value : ℚ
  at_wavelength : ℚ

/-- `ThorLabsPM100A_S120VC_PowerMeterMeasurement::uncertainty`:
`value * frac_uncertainty` for the wavelength's range; the `panic!` inside
`get_range` propagates as `none`. -/
def ThorLabsPM100A_S120VC_PowerMeterMeasurement.uncertainty
    (m : ThorLabsPM100A_S120VC_PowerMeterMeasurement) : Option ℚ :=
  match ThorlabsPm100aS120vcUncertaintyWavelengthRange.get_range m.at_wavelength with
  | some range => some (m.value * THORLABS_PM100A_S120VC_WAVELENGTH_UNCERTAINTIES range)
  | none => none

lemma thorlabs_get_range_bucket1 (w : ℚ) (h1 : 200 ≤ w) (h2 : w ≤ 279) :
    ThorlabsPm100aS120vcUncertaintyWavelengthRange.get_range w = some .Range200to279nm := by
  unfold ThorlabsPm100aS120vcUncertaintyWavelengthRange.get_range
  rw [if_pos ⟨h1, h2⟩]

lemma thorlabs_get_range_bucket2 (w : ℚ) (h1 : 279 < w) (h2 : w ≤ 439) :
    ThorlabsPm100aS120vcUncertaintyWavelengthRange.get_range w = some .Range280to439nm := by
  unfold ThorlabsPm100aS120vcUncertaintyWavelengthRange.get_range
  rw [if_neg (by push_neg; intro; linarith), if_pos ⟨h1, h2⟩]

lemma thorlabs_get_range_bucket3 (w : ℚ) (h1 : 439 < w) (h2 : w ≤ 980) :
    ThorlabsPm100aS120vcUncertaintyWavelengthRange.get_range w = some .Range440to980nm := by
  unfold ThorlabsPm100aS120vcUncertaintyWavelengthRange.get_range
  rw [if_neg (by push_neg; intro; linarith), if_neg (by push_neg; intro; linarith),
    if_pos ⟨h1, h2⟩]

lemma thorlabs_get_range_bucket4 (w : ℚ) (h1 : 980 < w) (h2 : w ≤ 1100) :
    ThorlabsPm100aS120vcUncertaintyWavelengthRange.get_range w = some .Range981to1100nm := by
  unfold ThorlabsPm100aS120vcUncertaintyWavelengthRange.get_range
  rw [if_neg (by push_neg; intro; linarith), if_neg (by push_neg; intro; linarith),
    if_neg (by push_neg; intro; linarith), if_pos ⟨h1, h2⟩]

lemma thorlabs_uncertainty_of_get_range (val w : ℚ)
    (r : ThorlabsPm100aS120vcUncertaintyWavelengthRange)
    (h : ThorlabsPm100aS120vcUncertaintyWavelengthRange.get_range w = some r) :
    ThorLabsPM100A_S120VC_PowerMeterMeasurement.uncertainty ⟨val, w⟩ =
      some (val * THORLABS_PM100A_S120VC_WAVELENGTH_UNCERTAINTIES r) := by
  unfold ThorLabsPM100A_S120VC_PowerMeterMeasurement.uncertainty
  simp only [h]

lemma thorlabs_uncertainty_none_iff (val w : ℚ) :
    ThorLabsPM100A_S120VC_PowerMeterMeasurement.uncertainty ⟨val, w⟩ = none ↔
      ThorlabsPm100aS120vcUncertaintyWavelengthRange.get_range w = none := by
  unfold ThorLabsPM100A_S120VC_PowerMeterMeasurement.uncertainty
  cases h : ThorlabsPm100aS120vcUncertaintyWavelengthRange.get_range w <;> simp [h]

/-- C4: for every value and every wavelength in [200, 1100] nm the Thorlabs
PM100A uncertainty is `value * frac(w)`, with frac = 0.07 on [200, 279],
0.05 on (279, 439], 0.03 on (439, 980] and 0.07 on (980, 1100].  One
conjunct per bucket of the section-4.2 table. -/
theorem thorlabs_uncertainty_table :
    (∀ val w : ℚ, 200 ≤ w → w ≤ 279 →
      ThorlabsPm100aS120vcUncertaintyWavelengthRange.get_range w = some .Range200to279nm ∧
      ThorLabsPM100A_S120VC_PowerMeterMeasurement.uncertainty ⟨val, w⟩ = some (val * 0.07)) ∧
    (∀ val w : ℚ, 279 < w → w ≤ 439 →
      ThorlabsPm100aS120vcUncertaintyWavelengthRange.get_range w = some .Range280to439nm ∧
      ThorLabsPM100A_S120VC_PowerMeterMeasurement.uncertainty ⟨val, w⟩ = some (val * 0.05)) ∧
    (∀ val w : ℚ, 439 < w → w ≤ 980 →
      ThorlabsPm100aS120vcUncertaintyWavelengthRange.get_range w = some .Range440to980nm ∧
      ThorLabsPM100A_S120VC_PowerMeterMeasurement.uncertainty ⟨val, w⟩ = some (val * 0.03)) ∧
    (∀ val w : ℚ, 980 < w → w ≤ 1100 →
      ThorlabsPm100aS120vcUncertaintyWavelengthRange.get_range w = some .Range981to1100nm ∧
      ThorLabsPM100A_S120VC_PowerMeterMeasurement.uncertainty ⟨val, w⟩ = some (val * 0.07)) := by
  refine ⟨fun val w h1 h2 => ?_, fun val w h1 h2 => ?_,
    fun val w h1 h2 => ?_, fun val w h1 h2 => ?_⟩
  · exact ⟨thorlabs_get_range_bucket1 w h1 h2,
      thorlabs_uncertainty_of_get_range val w _ (thorlabs_get_range_bucket1 w h1 h2)⟩
  · exact ⟨thorlabs_get_range_bucket2 w h1 h2,
      thorlabs_uncertainty_of_get_range val w _ (thorlabs_get_range_bucket2 w h1 h2)⟩
  · exact ⟨thorlabs_get_range_bucket3 w h1 h2,
      thorlabs_uncertainty_of_get_range val w _ (thorlabs_get_range_bucket3 w h1 h2)⟩
  · exact ⟨thorlabs_get_range_bucket4 w h1 h2,
      thorlabs_uncertainty_of_get_range val w _ (thorlabs_get_range_bucket4 w h1 h2)⟩

/-- Witness for C4 at the claim's three concrete inputs: w = 279 classifies
into the 200-279 bucket, w = 279.0001 into the 280-439 bucket, and a
reading of 0.01 W at 637.8 nm has uncertainty 0.01 * 0.03 = 0.0003. -/
theorem thorlabs_uncertainty_table_witness :
    ThorlabsPm100aS120vcUncertaintyWavelengthRange.get_range 279 =
      some .Range200to279nm ∧
    ThorlabsPm100aS120vcUncertaintyWavelengthRange.get_range 279.0001 =
      some .Range280to439nm ∧
    ThorLabsPM100A_S120VC_PowerMeterMeasurement.uncertainty ⟨0.01, 637.8⟩ =
      some 0.0003 := by
  have ha := thorlabs_uncertainty_table.1 0 279 (by norm_num) (by norm_num)
  have hb := thorlabs_uncertainty_table.2.1 0 279.0001 (by norm_num) (by norm_num)
  have hc := thorlabs_uncertainty_table.2.2.1 0.01 637.8 (by norm_num) (by norm_num)
  refine ⟨ha.1, hb.1, ?_⟩
  rw [hc.2]
  norm_num

lemma newport_get_range_none_iff (v : ℚ) :
    NewportModel835PowerMeterRange.get_range v = none ↔ v < 0 ∨ 0.2 < v := by
  constructor
  · intro h
    by_contra hc
    push_neg at hc
    obtain ⟨h0, h2⟩ := hc
    rcases le_or_lt v 0.000000002 with hb1 | hb1
    · rw [newport_get_range_bucket1 v h0 hb1] at h
      exact Option.noConfusion h
    rcases le_or_lt v 0.000000020 with hb2 | hb2
    · rw [newport_get_range_bucket2 v hb1 hb2] at h
      exact Option.noConfusion h
    rcases le_or_lt v 0.000000200 with hb3 | hb3
    · rw [newport_get_range_bucket3 v hb2 hb3] at h
      exact Option.noConfusion h
    rcases le_or_lt v 0.002 with hb4 | hb4
    · rw [newport_get_range_bucket4 v hb3 hb4] at h
      exact Option.noConfusion h
    rcases le_or_lt v 0.020 with hb5 | hb5
    · rw [newport_get_range_bucket5 v hb4 hb5] at h
      exact Option.noConfusion h
    · rw [newport_get_range_bucket6 v hb5 (by linarith)] at h
      exact Option.noConfusion h
  · intro h
    unfold NewportModel835PowerMeterRange.get_range
    rw [if_neg (by rcases h with h | h <;> push_neg <;> intro <;> linarith),
      if_neg (by rcases h with h | h <;> push_neg <;> intro <;> linarith),
      if_neg (by rcases h with h | h <;> push_neg <;> intro <;> linarith),
      if_neg (by rcases h with h | h <;> push_neg <;> intro <;> linarith),
      if_neg (by rcases h with h | h <;> push_neg <;> intro <;> linarith),
      if_neg (by rcases h with h | h <;> push_neg <;> intro <;> linarith)]

lemma thorlabs_get_range_none_iff (w : ℚ) :
    ThorlabsPm100aS120vcUncertaintyWavelengthRange.get_range w = none ↔
      w < 200 ∨ 1100 < w := by
  constructor
  · intro h
    by_contra hc
    push_neg at hc
    obtain ⟨h0, h2⟩ := hc
    rcases le_or_lt w 279 with hb1 | hb1
    · rw [thorlabs_get_range_bucket1 w h0 hb1] at h
      exact Option.noConfusion h
    rcases le_or_lt w 439 with hb2 | hb2
    · rw [thorlabs_get_range_bucket2 w hb1 hb2] at h
      exact Option.noConfusion h
    rcases le_or_lt w 980 with hb3 | hb3
    · rw [thorlabs_get_range_bucket3 w hb2 hb3] at h
      exact Option.noConfusion h
    · rw [thorlabs_get_range_bucket4 w hb3 h2] at h
      exact Option.noConfusion h
  · intro h
    unfold ThorlabsPm100aS120vcUncertaintyWavelengthRange.get_range
    rw [if_neg (by rcases h with h | h <;> push_neg <;> intro <;> linarith),
      if_neg (by rcases h with h | h <;> push_neg <;> intro <;> linarith),
      if_neg (by rcases h with h | h <;> push_neg <;> intro <;> linarith),
      if_neg (by rcases h with h | h <;> push_neg <;> intro <;> linarith)]

/-- C6: `uncertainty()` fails (returns no numeric value, the embedded
`panic!`) exactly when the reading is outside every calibration bucket:
for the Newport model exactly when the value is outside [0, 0.2] W, and
for the Thorlabs model exactly when the wavelength is outside
[200, 1100] nm; readings inside the tables are never rejected. -/
theorem uncertainty_fails_iff_out_of_range :
    (∀ v : ℚ, NewportModel835PowerMeterMeasurement.uncertainty ⟨v⟩ = none ↔
      v < 0 ∨ 0.2 < v) ∧
    (∀ val w : ℚ, ThorLabsPM100A_S120VC_PowerMeterMeasurement.uncertainty ⟨val, w⟩ = none ↔
      w < 200 ∨ 1100 < w) :=
  ⟨fun v => (newport_uncertainty_none_iff v).trans (newport_get_range_none_iff v),
    fun val w => (thorlabs_uncertainty_none_iff val w).trans (thorlabs_get_range_none_iff w)⟩

/-- Modelled from the spec: error kind `UnknownIncidentAngle` of the §7
error taxonomy — a requested incident angle is not present in the dataset;
it fails the whole reduction call.  No error type exists in the source:
the four reduction bodies in `src/experiment/computation.rs` are
`todo!()`. -/
inductive TrialComputationError
  | UnknownIncidentAngle
  deriving DecidableEq

/-- The `Trial` aggregate of `src/experiment/trial.rs`, with the dataset as
an ordered table of numeric rows and column indices as in the source.  The
two trailing uncertainty fields are modelled from the spec's capability
abstraction (§4.1/§4.4): the instrument models plugged into the trial,
represented by the `uncertainty()` function each exposes. -/
structure Trial where
  label : String
  full_data_set : List (List ℚ)
  transmitted_sensor_background : ℚ
  reflected_sensor_background : ℚ
  transmitted_power_column_number : Nat
  transmitted_power_meter_label : PowerMeterLabel
  reflected_power_column_number : Nat
  reflected_power_meter_label : PowerMeterLabel
  incident_angle_column : Nat
  mirror_angle_column : Nat
  polarization_state : PolarizationState
  slide : Slide
  reflected_uncertainty : ℚ → ℚ
  transmitted_uncertainty : ℚ → ℚ

/-- The incident-angle entry of a row (the row's value at the trial's
incident-angle column index). -/
def Trial.incident_angle_of_row (t : Trial) (row : List ℚ) : ℚ :=
  row.getD t.incident_angle_column 0

/-- The dataset's incident-angle column, in row order. -/
def Trial.dataset_incident_angles (t : Trial) : List ℚ :=
  t.full_data_set.map t.incident_angle_of_row

/-- Rows whose incident-angle column equals the given angle exactly, in
first-seen row order. -/
def Trial.rows_at (t : Trial) (a : ℚ) : List (List ℚ) :=
  t.full_data_set.filter fun row => decide (t.incident_angle_of_row row = a)

/-- Whether every requested incident angle is explicitly present in the
dataset's incident-angle column. -/
def Trial.angles_present (t : Trial) (incident_angles : List ℚ) : Bool :=
  incident_angles.all fun a => decide (a ∈ t.dataset_incident_angles)

/-- The efficiency of one data row: `Slide::compute_efficiency` applied to
the row's reflected and transmitted readings and the trial's backgrounds,
labels and polarization. -/
def Trial.row_efficiency (t : Trial) (row : List ℚ) : Option ℚ :=
  t.slide.compute_efficiency (row.getD t.reflected_power_column_number 0)
    t.reflected_sensor_background t.reflected_power_meter_label
    (row.getD t.transmitted_power_column_number 0)
    t.transmitted_sensor_background t.transmitted_power_meter_label
    t.polarization_state

/-- The incident power of one data row, via `Slide::compute_incident_power`. -/
def Trial.row_incident_power (t : Trial) (row : List ℚ) : Option ℚ :=
  t.slide.compute_incident_power (row.getD t.reflected_power_column_number 0)
    t.reflected_sensor_background t.reflected_power_meter_label
    (row.getD t.transmitted_power_column_number 0)
    t.transmitted_sensor_background t.transmitted_power_meter_label
    t.polarization_state

/-- Modelled from the spec: first-order propagation of each instrument's
`uncertainty()` through the efficiency formula of §4.3 (partial
derivatives of `Tc / (Rc/rho - Rc)` in `Tc` and `Rc`, each weighted by the
component's absolute uncertainty and combined by absolute-value sum; §4.4
fixes no exact combination rule). -/
def Trial.row_efficiency_error (t : Trial) (row : List ℚ) : Option ℚ :=
  match t.slide.optical_coefficients.get
      (Slide.get_sensor_label_row_index t.reflected_power_meter_label)
      (Slide.get_reflectivity_column_index t.polarization_state) with
  | some rho =>
      let rv := row.getD t.reflected_power_column_number 0
      let tv := row.getD t.transmitted_power_column_number 0
      let rc := rv - t.reflected_sensor_background
      let tc := tv - t.transmitted_sensor_background
      let denom := rc / rho - rc
      some (|1 / denom| * t.transmitted_uncertainty tv
        + |tc * (1 / rho - 1) / (denom * denom)| * t.reflected_uncertainty rv)
  | none => none

/-- Modelled from the spec: `Trial::compute_efficiency_vs_mirror_angle` is
`todo!()` in `src/experiment/computation.rs`; per §4.4, for each requested
incident angle the ordered (mirror angle, efficiency) pairs over the rows
at that angle, keyed by incident angle, failing with `UnknownIncidentAngle`
if any requested angle is absent from the dataset. -/
def Trial.compute_efficiency_vs_mirror_angle (t : Trial) (incident_angles : List ℚ) :
    Except TrialComputationError (List (ℚ × List (ℚ × Option ℚ))) :=
  if t.angles_present incident_angles then
    .ok (incident_angles.map fun a =>
      (a, (t.rows_at a).map fun row =>
        (row.getD t.mirror_angle_column 0, t.row_efficiency row)))
  else .error .UnknownIncidentAngle

/-- Modelled from the spec: `Trial::compute_efficiency_vs_incident_angle`
is `todo!()` in the source; per §4.4, one (incident angle, efficiency) pair
per requested angle, the efficiency computed from the row(s) at that angle
(here: the first such row), failing with `UnknownIncidentAngle` if any
requested angle is absent. -/
def Trial.compute_efficiency_vs_incident_angle (t : Trial) (incident_angles : List ℚ) :
    Except TrialComputationError (List (ℚ × Option ℚ)) :=
  if t.angles_present incident_angles then
    .ok (incident_angles.map fun a => (a, (t.rows_at a).head?.bind t.row_efficiency))
  else .error .UnknownIncidentAngle

/-- Modelled from the spec:
`Trial::compute_efficiency_vs_incident_angle_error` is `todo!()` in the
source; per §4.4, the one-sided propagated error per requested angle,
failing with `UnknownIncidentAngle` if any requested angle is absent. -/
def Trial.compute_efficiency_vs_incident_angle_error (t : Trial) (incident_angles : List ℚ) :
    Except TrialComputationError (List (ℚ × Option ℚ)) :=
  if t.angles_present incident_angles then
    .ok (incident_angles.map fun a => (a, (t.rows_at a).head?.bind t.row_efficiency_error))
  else .error .UnknownIncidentAngle

/-- Modelled from the spec: `Trial::compute_power_vs_mirror_angle` is
`todo!()` in the source; per §4.4, analogous to the efficiency-vs-mirror
series using `compute_incident_power`, failing with `UnknownIncidentAngle`
if any requested angle is absent. -/
def Trial.compute_power_vs_mirror_angle (t : Trial) (incident_angles : List ℚ) :
    Except TrialComputationError (List (ℚ × List (ℚ × Option ℚ))) :=
  if t.angles_present incident_angles then
    .ok (incident_angles.map fun a =>
      (a, (t.rows_at a).map fun row =>
        (row.getD t.mirror_angle_column 0, t.row_incident_power row)))
  else .error .UnknownIncidentAngle

/-- C7: each of the four reduction operations fails with
`UnknownIncidentAngle`, returning no (empty or partial) result series,
whenever some requested incident angle is absent from the dataset's
incident-angle column. -/
theorem trial_reductions_fail_on_unknown_incident_angle (t : Trial)
    (incident_angles : List ℚ) (a : ℚ) (ha : a ∈ incident_angles)
    (habs : a ∉ t.dataset_incident_angles) :
    t.compute_efficiency_vs_mirror_angle incident_angles = .error .UnknownIncidentAngle ∧
    t.compute_efficiency_vs_incident_angle incident_angles = .error .UnknownIncidentAngle ∧
    t.compute_efficiency_vs_incident_angle_error incident_angles =
      .error .UnknownIncidentAngle ∧
    t.compute_power_vs_mirror_angle incident_angles = .error .UnknownIncidentAngle := by
  have hp : t.angles_present incident_angles = false := by
    cases h : t.angles_present incident_angles with
    | false => rfl
    | true =>
      unfold Trial.angles_present at h
      exact absurd (of_decide_eq_true (List.all_eq_true.mp h a ha)) habs
  refine ⟨?_, ?_, ?_, ?_⟩ <;>
    simp [Trial.compute_efficiency_vs_mirror_angle,
      Trial.compute_efficiency_vs_incident_angle,
      Trial.compute_efficiency_vs_incident_angle_error,
      Trial.compute_power_vs_mirror_angle, hp]

/-- A concrete trial over a 2-row dataset with incident angles 10 and 30,
columns (incident, mirror, reflected, transmitted) = (0, 1, 2, 3). -/
def testTrial : Trial where
  label := "t1"
  full_data_set := [[10, 20, 0.01, 0.005], [30, 40, 0.02, 0.006]]
  transmitted_sensor_background := 0.001
  reflected_sensor_background := 0.001
  transmitted_power_column_number := 3
  transmitted_power_meter_label := .SensorC
  reflected_power_column_number := 2
  reflected_power_meter_label := .SensorA
  incident_angle_column := 0
  mirror_angle_column := 1
  polarization_state := .Horizontal
  slide := testSlide
  reflected_uncertainty := fun v => v * 0.002
  transmitted_uncertainty := fun v => v * 0.03

/-- Witness for C7: requesting the absent incident angle 5 on `testTrial`
makes all four reductions fail with `UnknownIncidentAngle`. -/
theorem trial_reductions_fail_on_unknown_incident_angle_witness :
    testTrial.compute_efficiency_vs_mirror_angle [5] = .error .UnknownIncidentAngle ∧
    testTrial.compute_efficiency_vs_incident_angle [5] = .error .UnknownIncidentAngle ∧
    testTrial.compute_efficiency_vs_incident_angle_error [5] =
      .error .UnknownIncidentAngle ∧
    testTrial.compute_power_vs_mirror_angle [5] = .error .UnknownIncidentAngle := by
  have hd : testTrial.dataset_incident_angles = [10, 30] := rfl
  refine trial_reductions_fail_on_unknown_incident_angle testTrial [5] 5
    (List.mem_singleton.mpr rfl) ?_
  rw [hd]
  intro h
  rcases List.mem_cons.mp h with h | h
  · norm_num at h
  · rcases List.mem_cons.mp h with h | h
    · norm_num at h
    · exact List.not_mem_nil _ h
